import Mathlib

/-!
Verification development for the behavioral correlation engine of the
digital-self-toolkit repository.

The definitions below are shallow embeddings of the Python source:

* `calculate_pearson_correlation`, `pearson_denominator` embed
  `TimeAnalysis._calculate_pearson_correlation` (src/djangoapp/models.py),
  with Python floats modelled as real numbers.
* `calculate_domain_correlation`, `calculate_person_correlation`,
  `calculate_place_correlation` embed the three correlation passes of
  `TimeAnalysis` (src/djangoapp/models.py).  Day sentiments are modelled
  as rationals; the Pearson coefficient and significance score, computed
  through real square roots, stay real-valued.
* `process_day_messages` embeds the per-date portion of
  `TimeAnalysis.perform_sentiment_analysis`, with the AWS Comprehend
  oracle modelled as a per-item function returning `Option` scores.
* `convert_sentiment_score` embeds the label-to-score mapping of
  `TimeAnalysis._analyze_sentiment_batch`.
* `detect_stay_points`, `process_gps_trail` and friends embed
  `LocationClusterer` (src/djangoapp/location_clustering.py); the
  detector is parametric in the distance function, instantiated by the
  haversine embedding `calculate_distance` for the shipped behavior, and
  `process_gps_trail` is parametric in the DBSCAN step (an external
  scikit-learn collaborator).
* `rerun_deletions` embeds the derived-state deletions performed by a
  rerun of `TimeAnalysis.perform_sentiment_analysis` over a row store,
  including the Django `on_delete=CASCADE` rule from `PlaceAnalysis` to
  `Location`.
-/

namespace DigitalSelf

/-! ## Pearson correlation (`TimeAnalysis._calculate_pearson_correlation`) -/

/-- Denominator of the Pearson coefficient as the source computes it:
`math.sqrt((n*sum_x_sq - sum_x*sum_x) * (n*sum_y_sq - sum_y*sum_y))`. -/
noncomputable def pearson_denominator (x y : List ℝ) : ℝ :=
  let n : ℝ := x.length
  let sum_x := x.sum
  let sum_y := y.sum
  let sum_x_sq := (x.map fun xi => xi * xi).sum
  let sum_y_sq := (y.map fun yi => yi * yi).sum
  Real.sqrt ((n * sum_x_sq - sum_x * sum_x) * (n * sum_y_sq - sum_y * sum_y))

/-- Embedding of `_calculate_pearson_correlation`: returns `0` for unequal
lengths or fewer than two samples, and `0` when the denominator vanishes;
otherwise the usual quotient. -/
noncomputable def calculate_pearson_correlation (x y : List ℝ) : ℝ :=
  if x.length ≠ y.length ∨ x.length < 2 then 0
  else
    let n : ℝ := x.length
    let sum_x := x.sum
    let sum_y := y.sum
    let sum_xy := ((x.zip y).map fun p => p.1 * p.2).sum
    let numerator := n * sum_xy - sum_x * sum_y
    let denominator := pearson_denominator x y
    if denominator = 0 then 0 else numerator / denominator

/-- Lagrange-style identity: the double sum of products of pairwise
differences is twice the covariance-style expression `n*Sxy - Sx*Sy`. -/
lemma sum_pair_diff_mul (n : ℕ) (u v : Fin n → ℝ) :
    (∑ p : Fin n × Fin n, (u p.1 - u p.2) * (v p.1 - v p.2)) =
      2 * ((n : ℝ) * (∑ i, u i * v i) - (∑ i, u i) * (∑ i, v i)) := by
  rw [Fintype.sum_prod_type]
  have expand : ∀ i j : Fin n, (u i - u j) * (v i - v j) =
      u i * v i - u i * v j - u j * v i + u j * v j := by
    intro i j; ring
  simp_rw [expand, Finset.sum_add_distrib, Finset.sum_sub_distrib,
    Finset.sum_const, Finset.card_univ, Fintype.card_fin, nsmul_eq_mul,
    ← Finset.mul_sum, ← Finset.sum_mul]
  simp_rw [← Finset.mul_sum]
  ring

/-- Covariance form of the Cauchy-Schwarz inequality over `Fin n`. -/
lemma cov_sq_le_var_mul_var (n : ℕ) (f g : Fin n → ℝ) :
    ((n : ℝ) * (∑ i, f i * g i) - (∑ i, f i) * (∑ i, g i)) ^ 2 ≤
      ((n : ℝ) * (∑ i, f i * f i) - (∑ i, f i) * (∑ i, f i)) *
        ((n : ℝ) * (∑ i, g i * g i) - (∑ i, g i) * (∑ i, g i)) := by
  have cs := Finset.sum_mul_sq_le_sq_mul_sq Finset.univ
    (fun p : Fin n × Fin n => f p.1 - f p.2) (fun p : Fin n × Fin n => g p.1 - g p.2)
  have hfg := sum_pair_diff_mul n f g
  have hff := sum_pair_diff_mul n f f
  have hgg := sum_pair_diff_mul n g g
  have sq_mul : ∀ w : Fin n → ℝ,
      (∑ p : Fin n × Fin n, (w p.1 - w p.2) ^ 2) =
        ∑ p : Fin n × Fin n, (w p.1 - w p.2) * (w p.1 - w p.2) := by
    intro w; apply Finset.sum_congr rfl; intro p _; ring
  rw [hfg] at cs
  rw [sq_mul f, hff, sq_mul g, hgg] at cs
  nlinarith [cs]

/-- Sum of a mapped list as a `Fin`-indexed sum. -/
lemma list_map_sum_eq_fin_sum {α : Type} (l : List α) (g : α → ℝ) :
    (l.map g).sum = ∑ i : Fin l.length, g (l.get i) := by
  conv_lhs => rw [← List.ofFn_get l]
  rw [List.map_ofFn, List.sum_ofFn]
  simp [Function.comp]

/-- Cauchy-Schwarz packaged for a list of real pairs. -/
lemma pearson_cs (l : List (ℝ × ℝ)) :
    ((l.length : ℝ) * ((l.map fun p => p.1 * p.2).sum) -
        ((l.map Prod.fst).sum) * ((l.map Prod.snd).sum)) ^ 2 ≤
      ((l.length : ℝ) * ((l.map fun p => p.1 * p.1).sum) -
          ((l.map Prod.fst).sum) * ((l.map Prod.fst).sum)) *
        ((l.length : ℝ) * ((l.map fun p => p.2 * p.2).sum) -
            ((l.map Prod.snd).sum) * ((l.map Prod.snd).sum)) := by
  rw [list_map_sum_eq_fin_sum l (fun p => p.1 * p.2),
    list_map_sum_eq_fin_sum l Prod.fst, list_map_sum_eq_fin_sum l Prod.snd,
    list_map_sum_eq_fin_sum l (fun p => p.1 * p.1),
    list_map_sum_eq_fin_sum l (fun p => p.2 * p.2)]
  exact cov_sq_le_var_mul_var l.length (fun i => (l.get i).1) (fun i => (l.get i).2)

/-- The quotient case of the Pearson bound: whenever the denominator is
nonzero, the quotient lies in `[-1, 1]`. -/
lemma pearson_quotient_bound (x y : List ℝ) (hlen : x.length = y.length)
    (hden : pearson_denominator x y ≠ 0) :
    |((x.length : ℝ) * (((x.zip y).map fun p => p.1 * p.2).sum) - x.sum * y.sum) /
        pearson_denominator x y| ≤ 1 := by
  set l := x.zip y with hl
  have hx : l.map Prod.fst = x := List.map_fst_zip x y (le_of_eq hlen)
  have hy : l.map Prod.snd = y := List.map_snd_zip x y (ge_of_eq hlen)
  have hll : l.length = x.length := by
    rw [hl, List.length_zip, hlen, min_self]
  have hxsq : l.map (fun p => p.1 * p.1) = x.map fun xi => xi * xi := by
    have : l.map (fun p => p.1 * p.1) = (l.map Prod.fst).map fun a => a * a := by
      rw [List.map_map]; rfl
    rw [this, hx]
  have hysq : l.map (fun p => p.2 * p.2) = y.map fun yi => yi * yi := by
    have : l.map (fun p => p.2 * p.2) = (l.map Prod.snd).map fun a => a * a := by
      rw [List.map_map]; rfl
    rw [this, hy]
  have key := pearson_cs l
  rw [hx, hy, hll, hxsq, hysq] at key
  set num := (x.length : ℝ) * ((l.map fun p => p.1 * p.2).sum) - x.sum * y.sum with hnum
  set D := ((x.length : ℝ) * ((x.map fun xi => xi * xi).sum) - x.sum * x.sum) *
      ((x.length : ℝ) * ((y.map fun yi => yi * yi).sum) - y.sum * y.sum) with hD
  have hden_eq : pearson_denominator x y = Real.sqrt D := by
    rw [pearson_denominator, hD]
  have hkey : num ^ 2 ≤ D := key
  have hDnn : 0 ≤ D := le_trans (sq_nonneg num) hkey
  have habs : |num| ≤ Real.sqrt D := by
    rw [← Real.sqrt_sq_eq_abs]
    exact Real.sqrt_le_sqrt hkey
  have hpos : 0 < Real.sqrt D := by
    rcases lt_or_eq_of_le (Real.sqrt_nonneg D) with h | h
    · exact h
    · exact absurd (hden_eq.trans h.symm) hden
  rw [hden_eq, abs_div, abs_of_pos hpos]
  exact (div_le_one hpos).mpr habs

/-- C2: the Pearson-correlation function always returns a value in
`[-1, 1]`, and it returns exactly `0` whenever the denominator is zero,
the lengths differ, or there are fewer than two samples. -/
theorem pearson_bounded_and_zero_cases : ∀ x y : List ℝ,
    (-1 ≤ calculate_pearson_correlation x y ∧ calculate_pearson_correlation x y ≤ 1) ∧
    (pearson_denominator x y = 0 → calculate_pearson_correlation x y = 0) ∧
    (x.length ≠ y.length → calculate_pearson_correlation x y = 0) ∧
    (x.length < 2 → calculate_pearson_correlation x y = 0) := by
  intro x y
  by_cases hguard : x.length ≠ y.length ∨ x.length < 2
  · have h0 : calculate_pearson_correlation x y = 0 := by
      rw [calculate_pearson_correlation, if_pos hguard]
    refine ⟨⟨?_, ?_⟩, fun _ => h0, fun _ => h0, fun _ => h0⟩ <;> rw [h0] <;> norm_num
  · push_neg at hguard
    obtain ⟨hlen, _⟩ := hguard
    by_cases hden : pearson_denominator x y = 0
    · have h0 : calculate_pearson_correlation x y = 0 := by
        rw [calculate_pearson_correlation, if_neg (by push_neg; exact ⟨hlen, by omega⟩)]
        exact if_pos hden
      refine ⟨⟨?_, ?_⟩, fun _ => h0, fun h => absurd hlen h, fun h => absurd h (by omega)⟩ <;>
        rw [h0] <;> norm_num
    · have hval : calculate_pearson_correlation x y =
          ((x.length : ℝ) * (((x.zip y).map fun p => p.1 * p.2).sum) - x.sum * y.sum) /
            pearson_denominator x y := by
        rw [calculate_pearson_correlation, if_neg (by push_neg; exact ⟨hlen, by omega⟩)]
        exact if_neg hden
      have hbound := pearson_quotient_bound x y hlen hden
      rw [← hval] at hbound
      have habs := abs_le.mp hbound
      exact ⟨habs, fun h => absurd h hden, fun h => absurd hlen h, fun h => absurd h (by omega)⟩

/-- Witness for C2: concrete inputs discharging each of the three
zero-case hypotheses (vanishing denominator, unequal lengths, short
input), applying the theorem at those inputs. -/
theorem pearson_bounded_and_zero_cases_witness :
    calculate_pearson_correlation [0, 0] [0, 0] = 0 ∧
    calculate_pearson_correlation [1] [2, 3] = 0 ∧
    calculate_pearson_correlation [1] [1] = 0 := by
  refine ⟨(pearson_bounded_and_zero_cases [0, 0] [0, 0]).2.1 ?_,
    (pearson_bounded_and_zero_cases [1] [2, 3]).2.2.1 (by norm_num),
    (pearson_bounded_and_zero_cases [1] [1]).2.2.2 (by norm_num)⟩
  rw [pearson_denominator]
  norm_num

/-! ## Correlation analyzers (`_calculate_domain/person/place_correlation`) -/

/-- A `Day` row as seen by the correlation passes: a date and the
finalized average sentiment for that date. -/
structure DayRecord where
  date : String
  sentiment : ℚ
deriving DecidableEq, Repr

/-- A `WebsiteAnalysis` row as built by `_calculate_domain_correlation`. -/
structure WebsiteAnalysisRecord where
  domain : String
  correlation_coefficient : ℝ
  days_visited : ℕ
  days_not_visited : ℕ
  avg_sentiment_when_visited : ℚ
  avg_sentiment_when_not_visited : ℚ
  total_visits : ℕ
  significance_score : ℝ

/-- A `PersonAnalysis` row as built by `_calculate_person_correlation`. -/
structure PersonAnalysisRecord where
  contact_name : String
  correlation_coefficient : ℝ
  days_interacted : ℕ
  days_not_interacted : ℕ
  avg_sentiment_when_interacted : ℚ
  avg_sentiment_when_not_interacted : ℚ
  total_messages : ℕ
  significance_score : ℝ

/-- The fields of a `Location` row that `_calculate_place_correlation`
reads: primary key, clustered visit count, and display name. -/
structure LocationRecord where
  pk : ℕ
  visit_count : ℕ
  name : String
deriving DecidableEq, Repr

/-- A `PlaceAnalysis` row as built by `_calculate_place_correlation`. -/
structure PlaceAnalysisRecord where
  location_pk : ℕ
  correlation_coefficient : ℝ
  days_present : ℕ
  days_not_present : ℕ
  avg_sentiment_when_present : ℚ
  avg_sentiment_when_not_present : ℚ
  total_visits : ℕ
  significance_score : ℝ

/-- Embedding of `_calculate_domain_correlation`.  The source loop walks
`days_with_sentiment` once, appending each day to exactly one of the
visited/not-visited tallies; `total_visits` is incremented once per
visited day.  `daily_website_visits date domain` models
`domain in daily_website_visits.get(date_str, set())`. -/
noncomputable def calculate_domain_correlation (domain : String)
    (days_with_sentiment : List DayRecord)
    (daily_website_visits : String → String → Bool) :
    Option WebsiteAnalysisRecord :=
  let sentiment_scores := days_with_sentiment.map fun d => d.sentiment
  let domain_presence := days_with_sentiment.map fun d =>
    if daily_website_visits d.date domain then (1 : ℚ) else 0
  let visited := days_with_sentiment.filter fun d => daily_website_visits d.date domain
  let not_visited :=
    days_with_sentiment.filter fun d => !(daily_website_visits d.date domain)
  let days_visited := visited.length
  let days_not_visited := not_visited.length
  let sentiment_when_visited := visited.map fun d => d.sentiment
  let sentiment_when_not_visited := not_visited.map fun d => d.sentiment
  let total_visits := days_visited
  if days_visited < 2 ∨ days_not_visited < 2 ∨ total_visits < 3 then none
  else
    let correlation := calculate_pearson_correlation
      (sentiment_scores.map fun q => (q : ℝ)) (domain_presence.map fun q => (q : ℝ))
    some {
      domain := domain
      correlation_coefficient := correlation
      days_visited := days_visited
      days_not_visited := days_not_visited
      avg_sentiment_when_visited :=
        if sentiment_when_visited = [] then 0
        else sentiment_when_visited.sum / (sentiment_when_visited.length : ℚ)
      avg_sentiment_when_not_visited :=
        if sentiment_when_not_visited = [] then 0
        else sentiment_when_not_visited.sum / (sentiment_when_not_visited.length : ℚ)
      total_visits := total_visits
      significance_score :=
        |correlation| * (min days_visited days_not_visited : ℝ) / 10 }

/-- Embedding of `_calculate_person_correlation`.  Note: its guard only
checks the interacted/not-interacted day counts; there is no
`total_messages < 3` test.  `total_messages` is incremented once per
interacted day. -/
noncomputable def calculate_person_correlation (contact : String)
    (days_with_sentiment : List DayRecord)
    (daily_person_interactions : String → String → Bool) :
    Option PersonAnalysisRecord :=
  let sentiment_scores := days_with_sentiment.map fun d => d.sentiment
  let person_interaction := days_with_sentiment.map fun d =>
    if daily_person_interactions d.date contact then (1 : ℚ) else 0
  let interacted :=
    days_with_sentiment.filter fun d => daily_person_interactions d.date contact
  let not_interacted :=
    days_with_sentiment.filter fun d => !(daily_person_interactions d.date contact)
  let days_interacted := interacted.length
  let days_not_interacted := not_interacted.length
  let sentiment_when_interacted := interacted.map fun d => d.sentiment
  let sentiment_when_not_interacted := not_interacted.map fun d => d.sentiment
  let total_messages := days_interacted
  if days_interacted < 2 ∨ days_not_interacted < 2 then none
  else
    let correlation := calculate_pearson_correlation
      (sentiment_scores.map fun q => (q : ℝ)) (person_interaction.map fun q => (q : ℝ))
    some {
      contact_name := contact
      correlation_coefficient := correlation
      days_interacted := days_interacted
      days_not_interacted := days_not_interacted
      avg_sentiment_when_interacted :=
        if sentiment_when_interacted = [] then 0
        else sentiment_when_interacted.sum / (sentiment_when_interacted.length : ℚ)
      avg_sentiment_when_not_interacted :=
        if sentiment_when_not_interacted = [] then 0
        else sentiment_when_not_interacted.sum / (sentiment_when_not_interacted.length : ℚ)
      total_messages := total_messages
      significance_score :=
        |correlation| * (min days_interacted days_not_interacted : ℝ) / 10 }

/-- Embedding of `_calculate_place_correlation`.  The guard again checks
only the present/not-present day counts; `total_visits` is taken from the
`Location` row's clustered `visit_count`, not from the day tally.
`daily_place_presence date pk` models
`location.pk in daily_place_presence.get(date_str, set())`. -/
noncomputable def calculate_place_correlation (location : LocationRecord)
    (days_with_sentiment : List DayRecord)
    (daily_place_presence : String → ℕ → Bool) :
    Option PlaceAnalysisRecord :=
  let sentiment_scores := days_with_sentiment.map fun d => d.sentiment
  let place_presence := days_with_sentiment.map fun d =>
    if daily_place_presence d.date location.pk then (1 : ℚ) else 0
  let present :=
    days_with_sentiment.filter fun d => daily_place_presence d.date location.pk
  let not_present :=
    days_with_sentiment.filter fun d => !(daily_place_presence d.date location.pk)
  let days_present := present.length
  let days_not_present := not_present.length
  let sentiment_when_present := present.map fun d => d.sentiment
  let sentiment_when_not_present := not_present.map fun d => d.sentiment
  let total_visits := location.visit_count
  if days_present < 2 ∨ days_not_present < 2 then none
  else
    let correlation := calculate_pearson_correlation
      (sentiment_scores.map fun q => (q : ℝ)) (place_presence.map fun q => (q : ℝ))
    some {
      location_pk := location.pk
      correlation_coefficient := correlation
      days_present := days_present
      days_not_present := days_not_present
      avg_sentiment_when_present :=
        if sentiment_when_present = [] then 0
        else sentiment_when_present.sum / (sentiment_when_present.length : ℚ)
      avg_sentiment_when_not_present :=
        if sentiment_when_not_present = [] then 0
        else sentiment_when_not_present.sum / (sentiment_when_not_present.length : ℚ)
      total_visits := total_visits
      significance_score :=
        |correlation| * (min days_present days_not_present : ℝ) / 10 }

/-- A filtered list and its complement-filtered list partition the
original list's length. -/
lemma length_filter_add_length_filter_not {α : Type} (p : α → Bool) (l : List α) :
    (l.filter p).length + (l.filter fun a => !(p a)).length = l.length := by
  induction l with
  | nil => simp
  | cons a t ih =>
    by_cases h : p a = true <;> simp [List.filter_cons, h] <;> omega

/-- A guarded construction is `none` exactly when its guard holds. -/
lemma guarded_none_iff {α : Type} (c : Prop) [Decidable c] (a : α) :
    ((if c then (none : Option α) else some a) = none) ↔ c := by
  split_ifs with h <;> simp [h]

/-- Six days of sentiment used as concrete analyzer input. -/
def exampleDays : List DayRecord :=
  [⟨"2025-06-01", 1/2⟩, ⟨"2025-06-02", -1/2⟩, ⟨"2025-06-03", 1/2⟩,
   ⟨"2025-06-04", -1/2⟩, ⟨"2025-06-05", 1/2⟩, ⟨"2025-06-06", -1/2⟩]

/-- Concrete browser-history presence: one domain seen on three days. -/
def exampleVisits : String → String → Bool := fun date domain =>
  decide (domain = "news.example" ∧
    (date = "2025-06-01" ∨ date = "2025-06-03" ∨ date = "2025-06-05"))

/-- Concrete contact presence: one contact messaged on two days. -/
def exampleInteractions : String → String → Bool := fun date contact =>
  decide (contact = "Alice" ∧ (date = "2025-06-01" ∨ date = "2025-06-02"))

/-- Concrete location row and place presence: present on two days. -/
def examplePlace : LocationRecord := ⟨7, 5, "Home"⟩

/-- Concrete place-presence map matching `examplePlace`. -/
def examplePresence : String → ℕ → Bool := fun date pk =>
  decide (pk = 7 ∧ (date = "2025-06-01" ∨ date = "2025-06-04"))

/-- C1 counterexample: in the person dimension the code has no
`total occurrence count < 3` rejection.  A contact interacted with on
exactly 2 of 6 days (total occurrence count 2 < 3) still produces a
`PersonAnalysis` record, contradicting the claim. -/
theorem person_accepted_with_total_below_three :
    ((calculate_person_correlation "Alice" exampleDays exampleInteractions).map
      fun r => (r.days_interacted, r.days_not_interacted, r.total_messages)) =
      some (2, 4, 2) := by
  decide

/-- C1 (amended): the website dimension rejects exactly when the
present-day count is < 2, the absent-day count is < 2, or the total
occurrence count is < 3; the person and place dimensions reject exactly
when the present-day count is < 2 or the absent-day count is < 2 (no
total-occurrence test). -/
theorem rejection_guards_exact :
    ∀ (domain contact : String) (loc : LocationRecord) (days : List DayRecord)
      (visits inter : String → String → Bool) (presence : String → ℕ → Bool),
    (calculate_domain_correlation domain days visits = none ↔
      (days.filter fun d => visits d.date domain).length < 2 ∨
      (days.filter fun d => !(visits d.date domain)).length < 2 ∨
      (days.filter fun d => visits d.date domain).length < 3) ∧
    (calculate_person_correlation contact days inter = none ↔
      (days.filter fun d => inter d.date contact).length < 2 ∨
      (days.filter fun d => !(inter d.date contact)).length < 2) ∧
    (calculate_place_correlation loc days presence = none ↔
      (days.filter fun d => presence d.date loc.pk).length < 2 ∨
      (days.filter fun d => !(presence d.date loc.pk)).length < 2) := by
  intro domain contact loc days visits inter presence
  refine ⟨?_, ?_, ?_⟩
  · simp only [calculate_domain_correlation]
    exact guarded_none_iff _ _
  · simp only [calculate_person_correlation]
    exact guarded_none_iff _ _
  · simp only [calculate_place_correlation]
    exact guarded_none_iff _ _

/-- C5: whenever any of the three dimensions produces a result, the
present-day and absent-day counts sum to the number of analyzed days. -/
theorem produced_result_counts_partition :
    ∀ (domain contact : String) (loc : LocationRecord) (days : List DayRecord)
      (visits inter : String → String → Bool) (presence : String → ℕ → Bool),
    (∀ r, calculate_domain_correlation domain days visits = some r →
       r.days_visited + r.days_not_visited = days.length) ∧
    (∀ r, calculate_person_correlation contact days inter = some r →
       r.days_interacted + r.days_not_interacted = days.length) ∧
    (∀ r, calculate_place_correlation loc days presence = some r →
       r.days_present + r.days_not_present = days.length) := by
  intro domain contact loc days visits inter presence
  refine ⟨?_, ?_, ?_⟩ <;> intro r hr <;>
    simp only [calculate_domain_correlation, calculate_person_correlation,
      calculate_place_correlation] at hr <;>
    split_ifs at hr <;>
    first
      | (have heq := (Option.some.injEq _ _).mp hr
         subst heq
         exact length_filter_add_length_filter_not _ _)
      | simp at hr

/-- Witness for C5: each dimension actually produces a record on the
example input, and its day counts sum to the six analyzed days. -/
theorem produced_result_counts_partition_witness :
    (∃ r, calculate_domain_correlation "news.example" exampleDays exampleVisits = some r ∧
       r.days_visited + r.days_not_visited = exampleDays.length) ∧
    (∃ r, calculate_person_correlation "Alice" exampleDays exampleInteractions = some r ∧
       r.days_interacted + r.days_not_interacted = exampleDays.length) ∧
    (∃ r, calculate_place_correlation examplePlace exampleDays examplePresence = some r ∧
       r.days_present + r.days_not_present = exampleDays.length) := by
  have h1 : (calculate_domain_correlation "news.example" exampleDays exampleVisits).isSome
      = true := by decide
  have h2 : (calculate_person_correlation "Alice" exampleDays exampleInteractions).isSome
      = true := by decide
  have h3 : (calculate_place_correlation examplePlace exampleDays examplePresence).isSome
      = true := by decide
  refine ⟨⟨_, (Option.some_get h1).symm, ?_⟩, ⟨_, (Option.some_get h2).symm, ?_⟩,
    ⟨_, (Option.some_get h3).symm, ?_⟩⟩
  · exact (produced_result_counts_partition "news.example" "Alice" examplePlace exampleDays
      exampleVisits exampleInteractions examplePresence).1 _ (Option.some_get h1).symm
  · exact (produced_result_counts_partition "news.example" "Alice" examplePlace exampleDays
      exampleVisits exampleInteractions examplePresence).2.1 _ (Option.some_get h2).symm
  · exact (produced_result_counts_partition "news.example" "Alice" examplePlace exampleDays
      exampleVisits exampleInteractions examplePresence).2.2 _ (Option.some_get h3).symm

/-- C9: the website pass increments `total_visits` exactly once per
visited day, so every produced record has `total_visits = days_visited`,
and rejection is equivalent to fewer than 3 visited days or fewer than 2
non-visited days. -/
theorem website_total_visits_eq_days_visited :
    ∀ (domain : String) (days : List DayRecord) (visits : String → String → Bool),
    (∀ r, calculate_domain_correlation domain days visits = some r →
       r.total_visits = r.days_visited) ∧
    (calculate_domain_correlation domain days visits = none ↔
      (days.filter fun d => visits d.date domain).length < 3 ∨
      (days.filter fun d => !(visits d.date domain)).length < 2) := by
  intro domain days visits
  constructor
  · intro r hr
    simp only [calculate_domain_correlation] at hr
    split_ifs at hr <;>
    first
      | (have heq := (Option.some.injEq _ _).mp hr
         subst heq
         rfl)
      | simp at hr
  · have base : calculate_domain_correlation domain days visits = none ↔
        (days.filter fun d => visits d.date domain).length < 2 ∨
        (days.filter fun d => !(visits d.date domain)).length < 2 ∨
        (days.filter fun d => visits d.date domain).length < 3 := by
      simp only [calculate_domain_correlation]
      exact guarded_none_iff _ _
    rw [base]
    constructor <;> intro h <;> omega

/-- Witness for C9: the example domain is kept (visited on 3 of 6 days)
and its record satisfies `total_visits = days_visited`. -/
theorem website_total_visits_eq_days_visited_witness :
    ∃ r, calculate_domain_correlation "news.example" exampleDays exampleVisits = some r ∧
      r.total_visits = r.days_visited := by
  have h1 : (calculate_domain_correlation "news.example" exampleDays exampleVisits).isSome
      = true := by decide
  exact ⟨_, (Option.some_get h1).symm,
    (website_total_visits_eq_days_visited "news.example" exampleDays exampleVisits).1 _
      (Option.some_get h1).symm⟩

/-! ## Sentiment scoring and per-day aggregation
(`_analyze_sentiment_batch`, `perform_sentiment_analysis`) -/

/-- Sentiment labels returned by the AWS Comprehend oracle.  The source's
final `else` branch treats any remaining label as `MIXED`. -/
inductive SentimentLabel where
  | POSITIVE
  | NEGATIVE
  | NEUTRAL
  | MIXED
deriving DecidableEq, Repr

/-- The oracle's per-item confidence quadruple (`SentimentScore` dict). -/
structure SentimentScore where
  Positive : ℚ
  Negative : ℚ
  Neutral : ℚ
  Mixed : ℚ
deriving DecidableEq, Repr

/-- Embedding of the label-to-number conversion in
`_analyze_sentiment_batch` (src/djangoapp/models.py lines 792-799). -/
def convert_sentiment_score (sentiment : SentimentLabel) (scores : SentimentScore) : ℚ :=
  match sentiment with
  | .POSITIVE => scores.Positive - scores.Negative
  | .NEGATIVE => -(scores.Negative - scores.Positive)
  | .NEUTRAL => scores.Positive - scores.Negative
  | .MIXED => (scores.Positive - scores.Negative) * 0.5

/-- Modelled from the spec: the sentiment-score convention the oracle
must honor, written with the spec's own formulas (`0.5 ×` on the left for
MIXED), used to compare against the source's mapping. -/
def spec_sentiment_score (sentiment : SentimentLabel) (scores : SentimentScore) : ℚ :=
  match sentiment with
  | .POSITIVE => scores.Positive - scores.Negative
  | .NEGATIVE => -(scores.Negative - scores.Positive)
  | .NEUTRAL => scores.Positive - scores.Negative
  | .MIXED => 0.5 * (scores.Positive - scores.Negative)

/-- C4: the source's sentiment mapping coincides with the spec's mapping
on every label and confidence quadruple, and POSITIVE with
(positive = 0.9, negative = 0.05) scores exactly 0.85. -/
theorem sentiment_mapping_matches_spec :
    (∀ (l : SentimentLabel) (s : SentimentScore),
       convert_sentiment_score l s = spec_sentiment_score l s) ∧
    convert_sentiment_score .POSITIVE ⟨0.9, 0.05, 0.03, 0.02⟩ = 0.85 := by
  constructor
  · intro l s
    cases l <;> simp [convert_sentiment_score, spec_sentiment_score] <;> ring
  · norm_num [convert_sentiment_score]

/-- C10: POSITIVE, NEGATIVE and NEUTRAL all score to the same number
(positive minus negative confidence); only MIXED differs, halving it. -/
theorem sentiment_label_affects_only_mixed :
    ∀ s : SentimentScore,
      convert_sentiment_score .POSITIVE s = s.Positive - s.Negative ∧
      convert_sentiment_score .NEGATIVE s = convert_sentiment_score .POSITIVE s ∧
      convert_sentiment_score .NEUTRAL s = convert_sentiment_score .POSITIVE s ∧
      convert_sentiment_score .MIXED s = convert_sentiment_score .POSITIVE s / 2 := by
  intro s
  refine ⟨rfl, ?_, rfl, ?_⟩ <;> simp [convert_sentiment_score] <;> ring

/-- Successive 25-element slices of a list, as produced by
`range(0, len(message_list), batch_size)` with `batch_size = 25`. -/
def chunk25 {α : Type} : List α → List (List α)
  | [] => []
  | a :: t => (a :: t).take 25 :: chunk25 ((a :: t).drop 25)
termination_by l => l.length
decreasing_by simp [List.length_drop]; omega

/-- The emitted `Day` row: final sentiment and stored message count. -/
structure DayResult where
  sentiment : ℚ
  message_count : ℕ
deriving DecidableEq, Repr

/-- Embedding of the per-date portion of `perform_sentiment_analysis`:
the `Day` is created with `message_count = len(message_list)` (the
submitted count), the messages are scored in batches of 25 by the oracle
(`analyze`, modelled per item), failed items are dropped, the day's
sentiment is updated to the mean of the successful scores, and a day with
no successful score is deleted (`none`). -/
def process_day_messages (analyze : String → Option ℚ) (message_list : List String) :
    Option DayResult :=
  if message_list = [] then none
  else
    let batches := chunk25 message_list
    let day_sentiments := (batches.map fun batch => (batch.map analyze).filterMap id).flatten
    if day_sentiments = [] then none
    else some { sentiment := day_sentiments.sum / (day_sentiments.length : ℚ)
                message_count := message_list.length }

/-- Batching by 25 then concatenating per-batch successes equals scoring
the whole list and keeping the successes. -/
lemma chunk25_scores_flatten (analyze : String → Option ℚ) (l : List String) :
    ((chunk25 l).map fun batch => (batch.map analyze).filterMap id).flatten =
      (l.map analyze).filterMap id := by
  have H : ∀ (n : ℕ) (l : List String), l.length ≤ n →
      ((chunk25 l).map fun batch => (batch.map analyze).filterMap id).flatten =
        (l.map analyze).filterMap id := by
    intro n
    induction n with
    | zero =>
      intro l hl
      have : l = [] := List.eq_nil_of_length_eq_zero (Nat.le_antisymm hl (Nat.zero_le _))
      subst this
      simp [chunk25]
    | succ n ih =>
      intro l hl
      cases l with
      | nil => simp [chunk25]
      | cons a t =>
        conv_rhs => rw [← List.take_append_drop 25 (a :: t)]
        rw [chunk25]
        simp only [List.map_cons, List.flatten_cons, List.map_append,
          List.filterMap_append]
        rw [ih ((a :: t).drop 25) (by
          simp only [List.length_drop, List.length_cons] at hl ⊢
          omega)]
  exact H l.length l le_rfl

/-- Concrete oracle: scores only the text "good day" (score 1); any
other item fails and is dropped. -/
def exampleOracle : String → Option ℚ := fun t =>
  if t = "good day" then some 1 else none

/-- Evaluation of the per-day pipeline on the concrete two-message input
whose second message fails scoring. -/
lemma process_day_example_eval :
    process_day_messages exampleOracle ["good day", "asdf"] =
      some { sentiment := 1, message_count := 2 } := by
  have htake : (["good day", "asdf"] : List String).take 25 = ["good day", "asdf"] :=
    List.take_of_length_le (by norm_num)
  have hdrop : (["good day", "asdf"] : List String).drop 25 = [] :=
    List.drop_eq_nil_of_le (by norm_num)
  have h1 : exampleOracle "good day" = some 1 := rfl
  have h2 : exampleOracle "asdf" = none := rfl
  simp only [process_day_messages, chunk25, htake, hdrop, h1, h2]
  norm_num [List.filterMap_cons, List.filterMap_nil, h1, h2]
  intro h
  simp at h

/-- C3 counterexample: two messages submitted for a date, one of which
fails scoring.  The emitted day stores `message_count = 2` (the submitted
count) although only 1 message was successfully scored, contradicting the
claim that `message_count` counts successfully scored messages. -/
theorem day_message_count_is_submitted_count :
    process_day_messages exampleOracle ["good day", "asdf"] =
      some { sentiment := 1, message_count := 2 } ∧
    ((["good day", "asdf"].map exampleOracle).filterMap id).length = 1 := by
  exact ⟨process_day_example_eval, by decide⟩

/-- C3 (amended): for every emitted day, `sentiment` is the arithmetic
mean of the successfully scored messages, while `message_count` is the
number of messages submitted for scoring for that date (not the number
successfully scored). -/
theorem day_sentiment_mean_and_count :
    ∀ (analyze : String → Option ℚ) (message_list : List String) (d : DayResult),
      process_day_messages analyze message_list = some d →
      d.sentiment = ((message_list.map analyze).filterMap id).sum /
          (((message_list.map analyze).filterMap id).length : ℚ) ∧
      d.message_count = message_list.length := by
  intro analyze l d hd
  simp only [process_day_messages] at hd
  split_ifs at hd <;>
  first
    | (have heq := (Option.some.injEq _ _).mp hd
       subst heq
       constructor
       · show ((chunk25 l).map fun batch => (batch.map analyze).filterMap id).flatten.sum /
             ((((chunk25 l).map fun batch =>
                 (batch.map analyze).filterMap id).flatten.length : ℚ)) = _
         rw [chunk25_scores_flatten]
       · rfl)
    | simp at hd

/-- Witness for C3 (amended): the theorem applied at the concrete
two-message input whose second message fails scoring. -/
theorem day_sentiment_mean_and_count_witness :
    (⟨1, 2⟩ : DayResult).sentiment =
        ((["good day", "asdf"].map exampleOracle).filterMap id).sum /
          ((((["good day", "asdf"].map exampleOracle).filterMap id).length : ℚ)) ∧
    (⟨1, 2⟩ : DayResult).message_count = ["good day", "asdf"].length :=
  day_sentiment_mean_and_count exampleOracle ["good day", "asdf"] ⟨1, 2⟩
    process_day_example_eval

/-! ## Location clustering (`location_clustering.py`) -/

/-- A GPS fix: coordinates (reals, modelling floats), timestamp in
seconds (rational), and the metadata fields read by the detector.  Absent
metadata is modelled as the empty string, matching the falsy test
`if gps_points[i].metadata.get(key)` in the source. -/
structure GPSPoint where
  latitude : ℝ
  longitude : ℝ
  timestamp : ℚ
  activity_type : String
  location_name : String
  address : String
  source : String

/-- Embedding of `_calculate_distance`: haversine distance in meters with
mean Earth radius 6,371,000 m; `math.radians x = x * π / 180`. -/
noncomputable def calculate_distance (lat1 lon1 lat2 lon2 : ℝ) : ℝ :=
  let lat1r := lat1 * (Real.pi / 180)
  let lon1r := lon1 * (Real.pi / 180)
  let lat2r := lat2 * (Real.pi / 180)
  let lon2r := lon2 * (Real.pi / 180)
  let dlat := lat2r - lat1r
  let dlon := lon2r - lon1r
  let a := Real.sin (dlat / 2) ^ 2 +
    Real.cos lat1r * Real.cos lat2r * Real.sin (dlon / 2) ^ 2
  let c := 2 * Real.arcsin (Real.sqrt a)
  c * 6371000

/-- The haversine distance from a point to itself is zero. -/
lemma calculate_distance_self (lat lon : ℝ) : calculate_distance lat lon lat lon = 0 := by
  simp [calculate_distance]

/-- The detector measures distances between fixes through
`_calculate_distance` on their coordinates. -/
noncomputable def haversine_point_distance (p q : GPSPoint) : ℝ :=
  calculate_distance p.latitude p.longitude q.latitude q.longitude

/-- A detected stay point (`StayPoint.__init__` computes
`duration_minutes` from the endpoint timestamps). -/
structure StayPoint where
  latitude : ℝ
  longitude : ℝ
  start_time : ℚ
  end_time : ℚ
  point_count : ℕ
  duration_minutes : ℚ
  activity_type : String
  location_name : String
  address : String
  source : String

/-- The inner `while` loop of `_detect_stay_points`: the maximal prefix
of the remaining trail all of whose fixes lie within `threshold` of the
anchor fix (distances measured from the anchor, not pairwise). -/
noncomputable def stay_window (dist : GPSPoint → GPSPoint → ℝ) (threshold : ℝ)
    (anchor : GPSPoint) : List GPSPoint → List GPSPoint
  | [] => []
  | q :: rest =>
    if dist anchor q > threshold then []
    else q :: stay_window dist threshold anchor rest

/-- Distinct elements in order of first occurrence, as iterating a Python
dict built by insertion yields its keys. -/
def first_occurrence_keys : List String → List String
  | [] => []
  | a :: t => a :: first_occurrence_keys (t.filter fun b => b ≠ a)
termination_by l => l.length
decreasing_by
  simpa using Nat.lt_succ_of_le (List.length_filter_le _ t)

/-- Embedding of the activity aggregation in `_detect_stay_points`: count
truthy activity tags and take `max(items, key=count)`, which returns the
first-encountered maximal key; empty string when no fix has a tag. -/
def most_common_activity (segment : List GPSPoint) : String :=
  let acts := (segment.map fun p => p.activity_type).filter fun a => a ≠ ""
  match first_occurrence_keys acts with
  | [] => ""
  | k :: ks => ks.foldl (fun best cand =>
      if acts.count cand > acts.count best then cand else best) k

/-- Construction of the emitted `StayPoint` for the window
`anchor :: tail`: centroid latitude/longitude, first/last timestamps,
dominant activity, and the name/address/source hints taken from the
anchor fix (`gps_points[i].metadata`). -/
noncomputable def make_stay_point (anchor : GPSPoint) (tail : List GPSPoint) : StayPoint :=
  let segment := anchor :: tail
  let last_ts := (segment.getLast (List.cons_ne_nil anchor tail)).timestamp
  { latitude := (segment.map fun p => p.latitude).sum / (segment.length : ℝ)
    longitude := (segment.map fun p => p.longitude).sum / (segment.length : ℝ)
    start_time := anchor.timestamp
    end_time := last_ts
    point_count := segment.length
    duration_minutes := (last_ts - anchor.timestamp) / 60
    activity_type := most_common_activity segment
    location_name := anchor.location_name
    address := anchor.address
    source := anchor.source }

/-- The emission test of `_detect_stay_points`: a window `p :: tail` is
emitted when it has at least two fixes (`j > i + 1`, i.e. `tail` is
nonempty) and the elapsed time between the first and last fix, in
minutes, reaches `stay_time_threshold` (timestamps are in seconds). -/
noncomputable def emit_stay_point (stay_time_threshold : ℚ) (p : GPSPoint) :
    List GPSPoint → List StayPoint
  | [] => []
  | q :: qs =>
    if (((q :: qs).getLast (List.cons_ne_nil q qs)).timestamp - p.timestamp) / 60 ≥
        stay_time_threshold then
      [make_stay_point p (q :: qs)]
    else []

/-- Embedding of the outer loop of `_detect_stay_points`: the window is
grown from the anchor fix, emitted when the test above passes, and the
scan resumes at `max(i+1, j)`, i.e. right after the window. -/
noncomputable def detect_stay_points (dist : GPSPoint → GPSPoint → ℝ)
    (stay_distance_threshold : ℝ) (stay_time_threshold : ℚ) :
    List GPSPoint → List StayPoint
  | [] => []
  | p :: rest =>
    let tail := stay_window dist stay_distance_threshold p rest
    emit_stay_point stay_time_threshold p tail ++
      detect_stay_points dist stay_distance_threshold stay_time_threshold
        (rest.drop tail.length)
termination_by l => l.length
decreasing_by
  simp [List.length_drop]; omega

/-- A clustered place with visit statistics (`LocationCluster`). -/
structure LocationCluster where
  center_latitude : ℝ
  center_longitude : ℝ
  name : String
  address : String
  visit_count : ℕ
  total_time_minutes : ℚ
  first_visit : Option ℚ
  last_visit : Option ℚ

/-- Embedding of `LocationCluster.__init__`: statistics derived from the
member stay points. -/
noncomputable def build_location_cluster (center_latitude center_longitude : ℝ)
    (stay_points : List StayPoint) (name address : String) : LocationCluster :=
  { center_latitude := center_latitude
    center_longitude := center_longitude
    name := name
    address := address
    visit_count := stay_points.length
    total_time_minutes := (stay_points.map fun sp => sp.duration_minutes).sum
    first_visit := (stay_points.map fun sp => sp.start_time).min?
    last_visit := (stay_points.map fun sp => sp.end_time).max? }

/-- The ordering produced by
`clusters.sort(key=lambda c: (-c.visit_count, -c.total_time_minutes))`:
descending visit count, ties broken by descending total dwell minutes. -/
def cluster_rank_le (c d : LocationCluster) : Prop :=
  d.visit_count < c.visit_count ∨
    (c.visit_count = d.visit_count ∧ d.total_time_minutes ≤ c.total_time_minutes)

instance : DecidableRel cluster_rank_le := fun c d => by
  unfold cluster_rank_le
  infer_instance

instance : IsTotal LocationCluster cluster_rank_le := by
  constructor
  intro a b
  rcases Nat.lt_trichotomy a.visit_count b.visit_count with h | h | h
  · exact Or.inr (Or.inl h)
  · rcases le_total a.total_time_minutes b.total_time_minutes with ht | ht
    · exact Or.inr (Or.inr ⟨h.symm, ht⟩)
    · exact Or.inl (Or.inr ⟨h, ht⟩)
  · exact Or.inl (Or.inl h)

instance : IsTrans LocationCluster cluster_rank_le := by
  constructor
  intro a b c hab hbc
  rcases hab with h1 | ⟨h1, h1t⟩ <;> rcases hbc with h2 | ⟨h2, h2t⟩
  · exact Or.inl (lt_trans h2 h1)
  · exact Or.inl (h2 ▸ h1)
  · exact Or.inl (h1 ▸ h2)
  · exact Or.inr ⟨h1.trans h2, le_trans h2t h1t⟩

/-- The final ordering step of `process_gps_trail`
(`clusters.sort(key=lambda c: (-c.visit_count, -c.total_time_minutes))`,
a stable ascending sort on the negated key). -/
def sort_clusters (clusters : List LocationCluster) : List LocationCluster :=
  List.insertionSort cluster_rank_le clusters

/-- Chronological order used by `_convert_to_gps_points`. -/
def gps_time_le (p q : GPSPoint) : Prop := p.timestamp ≤ q.timestamp

instance : DecidableRel gps_time_le := fun p q =>
  inferInstanceAs (Decidable (p.timestamp ≤ q.timestamp))

/-- Embedding of `LocationClusterer.process_gps_trail`: sort fixes
chronologically, detect stay points, hand them to the DBSCAN step
(`cluster_step`, an external scikit-learn collaborator modelled as a
parameter), and sort the resulting clusters by importance.  The empty
guards mirror the early returns of the source. -/
noncomputable def process_gps_trail
    (cluster_step : List StayPoint → List LocationCluster)
    (dist : GPSPoint → GPSPoint → ℝ) (stay_distance_threshold : ℝ)
    (stay_time_threshold : ℚ) (gps_data : List GPSPoint) : List LocationCluster :=
  let gps_points := List.insertionSort gps_time_le gps_data
  if gps_points.length = 0 then []
  else
    let stay_points :=
      detect_stay_points dist stay_distance_threshold stay_time_threshold gps_points
    if stay_points.length = 0 then []
    else sort_clusters (cluster_step stay_points)

/-- C8: whatever the DBSCAN step returns, the cluster list produced by
`process_gps_trail` is ordered by descending `visit_count` with ties
broken by descending `total_time_minutes`. -/
theorem clusters_sorted_by_visits_then_dwell :
    ∀ (cluster_step : List StayPoint → List LocationCluster)
      (dist : GPSPoint → GPSPoint → ℝ) (stay_distance_threshold : ℝ)
      (stay_time_threshold : ℚ) (gps_data : List GPSPoint),
      List.Sorted cluster_rank_le
        (process_gps_trail cluster_step dist stay_distance_threshold
          stay_time_threshold gps_data) := by
  intro cluster_step dist sd st gps_data
  simp only [process_gps_trail]
  split_ifs <;>
    first
      | exact List.sorted_nil
      | exact List.sorted_insertionSort cluster_rank_le _

/-- Anything emitted for a window is the stay point built from exactly
that window. -/
lemma eq_make_of_mem_emit {stay_time_threshold : ℚ} {p : GPSPoint}
    {tail : List GPSPoint} {sp : StayPoint}
    (h : sp ∈ emit_stay_point stay_time_threshold p tail) :
    sp = make_stay_point p tail := by
  cases tail with
  | nil => simp [emit_stay_point] at h
  | cons q qs =>
    simp only [emit_stay_point] at h
    split_ifs at h
    · simpa using h
    · simp at h

/-- Lifting a decomposition of a dropped suffix to the original list. -/
lemma cons_decomp_of_drop_decomp {α : Type} (p : α) (rest : List α) (m : ℕ)
    (pre : List α) (anchor : α) (tl : List α)
    (h : rest.drop m = pre ++ anchor :: tl) :
    ∃ pre2, p :: rest = pre2 ++ anchor :: tl := by
  refine ⟨p :: rest.take m ++ pre, ?_⟩
  conv_lhs => rw [← List.take_append_drop m rest, h]
  simp

/-- C6 (amended): every emitted `DwellEvent` is built from a contiguous
window of the trail, and its name, address and source hints are those of
the window's first fix (the anchor); hints on later fixes in the window
are ignored. -/
theorem stay_point_hints_from_first_fix :
    ∀ (dist : GPSPoint → GPSPoint → ℝ) (stay_distance_threshold : ℝ)
      (stay_time_threshold : ℚ) (pts : List GPSPoint) (sp : StayPoint),
      sp ∈ detect_stay_points dist stay_distance_threshold stay_time_threshold pts →
      ∃ pre anchor rest, pts = pre ++ anchor :: rest ∧
        sp = make_stay_point anchor (stay_window dist stay_distance_threshold anchor rest) ∧
        sp.location_name = anchor.location_name ∧
        sp.address = anchor.address ∧
        sp.source = anchor.source := by
  intro dist sd st
  have main : ∀ (n : ℕ) (pts : List GPSPoint), pts.length ≤ n →
      ∀ sp ∈ detect_stay_points dist sd st pts,
      ∃ pre anchor rest, pts = pre ++ anchor :: rest ∧
        sp = make_stay_point anchor (stay_window dist sd anchor rest) ∧
        sp.location_name = anchor.location_name ∧
        sp.address = anchor.address ∧
        sp.source = anchor.source := by
    intro n
    induction n with
    | zero =>
      intro pts hl sp hsp
      have hnil : pts = [] := List.eq_nil_of_length_eq_zero
        (Nat.le_antisymm hl (Nat.zero_le _))
      subst hnil
      simp [detect_stay_points] at hsp
    | succ n ih =>
      intro pts hl sp hsp
      cases pts with
      | nil => simp [detect_stay_points] at hsp
      | cons p rest =>
        rw [detect_stay_points] at hsp
        rcases List.mem_append.mp hsp with hleft | hright
        · refine ⟨[], p, rest, rfl, eq_make_of_mem_emit hleft, ?_, ?_, ?_⟩ <;>
            rw [eq_make_of_mem_emit hleft] <;> rfl
        · have hlen : (rest.drop (stay_window dist sd p rest).length).length ≤ n := by
            simp only [List.length_drop]
            simp only [List.length_cons] at hl
            omega
          obtain ⟨pre, anchor, tl, hdec, hmk, h1, h2, h3⟩ := ih _ hlen sp hright
          obtain ⟨pre2, hdec2⟩ := cons_decomp_of_drop_decomp p rest _ pre anchor tl hdec
          exact ⟨pre2, anchor, tl, hdec2, hmk, h1, h2, h3⟩
  intro pts sp hsp
  exact main pts.length pts le_rfl sp hsp

/-- First fix of the counterexample trail: no metadata hints. -/
noncomputable def hintFix0 : GPSPoint :=
  { latitude := 40, longitude := -74, timestamp := 0, activity_type := ""
    location_name := "", address := "", source := "" }

/-- Second fix, same spot: carries all three hints. -/
noncomputable def hintFix1 : GPSPoint :=
  { latitude := 40, longitude := -74, timestamp := 300, activity_type := "walking"
    location_name := "Home", address := "123 Main St", source := "ios" }

/-- Third fix, same spot, 20 minutes after the first: no hints. -/
noncomputable def hintFix2 : GPSPoint :=
  { latitude := 40, longitude := -74, timestamp := 1200, activity_type := ""
    location_name := "", address := "", source := "" }

/-- With all three fixes at the same coordinates, the shipped detector
(haversine distance, 100 m, 10 min) emits exactly the stay point built
from the whole trail as one window. -/
lemma detect_hint_example_eval :
    detect_stay_points haversine_point_distance 100 10 [hintFix0, hintFix1, hintFix2] =
      [make_stay_point hintFix0 [hintFix1, hintFix2]] := by
  have hd01 : haversine_point_distance hintFix0 hintFix1 = 0 := by
    simp [haversine_point_distance, hintFix0, hintFix1, calculate_distance_self]
  have hd02 : haversine_point_distance hintFix0 hintFix2 = 0 := by
    simp [haversine_point_distance, hintFix0, hintFix2, calculate_distance_self]
  have hwin : stay_window haversine_point_distance 100 hintFix0 [hintFix1, hintFix2] =
      [hintFix1, hintFix2] := by
    rw [stay_window, if_neg (by rw [hd01]; norm_num),
      stay_window, if_neg (by rw [hd02]; norm_num), stay_window]
  have hgl : ([hintFix1, hintFix2] : List GPSPoint).getLast
      (List.cons_ne_nil hintFix1 [hintFix2]) = hintFix2 := rfl
  have hemit : emit_stay_point 10 hintFix0 [hintFix1, hintFix2] =
      [make_stay_point hintFix0 [hintFix1, hintFix2]] := by
    simp only [emit_stay_point, hgl]
    rw [if_pos (by norm_num [hintFix0, hintFix2])]
  simp only [detect_stay_points, hwin, List.drop_length, List.append_nil, hemit]

/-- C6 counterexample: the trail's single window contains all three
fixes (`point_count = 3`) and the second fix carries non-empty name,
address and source hints, yet the emitted dwell event's hints are all
empty: only the window's first fix is consulted, so a later fix's hint
is not carried through as the claim states. -/
theorem stay_point_ignores_later_hints :
    ((detect_stay_points haversine_point_distance 100 10
        [hintFix0, hintFix1, hintFix2]).map
      fun sp => (sp.location_name, sp.address, sp.source, sp.point_count)) =
        [("", "", "", 3)] ∧
    hintFix1.location_name = "Home" ∧ hintFix1.address = "123 Main St" ∧
    hintFix1.source = "ios" := by
  refine ⟨?_, rfl, rfl, rfl⟩
  rw [detect_hint_example_eval]
  rfl

/-- Witness for C6 (amended): the theorem applied to the stay point the
shipped detector emits on the concrete three-fix trail. -/
theorem stay_point_hints_from_first_fix_witness :
    ∃ pre anchor rest,
      [hintFix0, hintFix1, hintFix2] = pre ++ anchor :: rest ∧
      make_stay_point hintFix0 [hintFix1, hintFix2] =
        make_stay_point anchor (stay_window haversine_point_distance 100 anchor rest) ∧
      (make_stay_point hintFix0 [hintFix1, hintFix2]).location_name =
        anchor.location_name ∧
      (make_stay_point hintFix0 [hintFix1, hintFix2]).address = anchor.address ∧
      (make_stay_point hintFix0 [hintFix1, hintFix2]).source = anchor.source :=
  stay_point_hints_from_first_fix haversine_point_distance 100 10
    [hintFix0, hintFix1, hintFix2] (make_stay_point hintFix0 [hintFix1, hintFix2])
    (by rw [detect_hint_example_eval]; exact List.mem_singleton_self _)

/-! ## Derived-state lifecycle (rerun deletions in
`perform_sentiment_analysis` and the three analysis passes) -/

/-- The row store of derived entities.  Each row is a pair whose first
component is the id of the `TimeAnalysis` run owning it; the second
component is the row's identity: for `locations` it is the location
primary key, for `place_analyses` it is the foreign-key location primary
key (`PlaceAnalysis.location`, declared `on_delete=models.CASCADE`), and
for the other kinds it is just a payload id. -/
structure DerivedStore where
  days : List (ℕ × ℕ)
  messages : List (ℕ × ℕ)
  locations : List (ℕ × ℕ)
  website_analyses : List (ℕ × ℕ)
  person_analyses : List (ℕ × ℕ)
  place_analyses : List (ℕ × ℕ)
deriving DecidableEq, Repr

/-- Embedding of the wholesale clear at the start of
`perform_sentiment_analysis`: `Message.objects.all().delete()`,
`Day.objects.all().delete()`, `Location.objects.all().delete()` — across
every run.  Deleting every `Location` also deletes, by the declared
cascade, every `PlaceAnalysis` row whose referenced location is gone. -/
def clear_all_day_message_location (s : DerivedStore) : DerivedStore :=
  let remaining_locations : List (ℕ × ℕ) := []
  { s with
    days := []
    messages := []
    locations := remaining_locations
    place_analyses := s.place_analyses.filter fun pa =>
      remaining_locations.any fun loc => loc.2 = pa.2 }

/-- The combined deletions a rerun performs: the wholesale clear above,
then the per-pass scoped clears
`WebsiteAnalysis.objects.filter(time_analysis=self).delete()`,
`PersonAnalysis.objects.filter(time_analysis=self).delete()`,
`PlaceAnalysis.objects.filter(time_analysis=self).delete()`. -/
def rerun_deletions (run : ℕ) (s : DerivedStore) : DerivedStore :=
  let s1 := clear_all_day_message_location s
  let s2 := { s1 with
    website_analyses := s1.website_analyses.filter fun w => w.1 ≠ run }
  let s3 := { s2 with
    person_analyses := s2.person_analyses.filter fun pa => pa.1 ≠ run }
  { s3 with place_analyses := s3.place_analyses.filter fun pa => pa.1 ≠ run }

/-- A store holding derived rows of run 2 while run 1 is rerun. -/
def exampleStore : DerivedStore :=
  { days := [(2, 0)]
    messages := [(2, 1)]
    locations := [(2, 5)]
    website_analyses := [(1, 0), (2, 1)]
    person_analyses := [(2, 2)]
    place_analyses := [(2, 5)] }

/-- C7 counterexample: rerunning run 1 deletes run 2's `Day`, `Message`
and `Location` rows (and, via the location cascade, run 2's
`PlaceAnalysis` row), so derived entities of other runs are not left
unchanged. -/
theorem rerun_deletes_other_runs_rows :
    rerun_deletions 1 exampleStore =
      { days := [], messages := [], locations := [],
        website_analyses := [(2, 1)], person_analyses := [(2, 2)],
        place_analyses := [] } ∧
    exampleStore.days = [(2, 0)] ∧ exampleStore.place_analyses = [(2, 5)] := by
  refine ⟨?_, rfl, rfl⟩
  decide

/-- C7 (amended): a rerun wholesale-deletes the `Day`, `Message` and
`Location` rows of every run and, through the location cascade, every
`PlaceAnalysis` row of every run; only the `WebsiteAnalysis` and
`PersonAnalysis` deletions are scoped to the rerun's run, so rows of
those two kinds belonging to other runs survive unchanged. -/
theorem rerun_deletions_scope :
    ∀ (run : ℕ) (s : DerivedStore),
      (rerun_deletions run s).days = [] ∧
      (rerun_deletions run s).messages = [] ∧
      (rerun_deletions run s).locations = [] ∧
      (rerun_deletions run s).place_analyses = [] ∧
      ((rerun_deletions run s).website_analyses =
        s.website_analyses.filter fun w => w.1 ≠ run) ∧
      ((rerun_deletions run s).person_analyses =
        s.person_analyses.filter fun pa => pa.1 ≠ run) ∧
      (∀ w ∈ s.website_analyses, w.1 ≠ run →
        w ∈ (rerun_deletions run s).website_analyses) ∧
      (∀ pa ∈ s.person_analyses, pa.1 ≠ run →
        pa ∈ (rerun_deletions run s).person_analyses) := by
  intro run s
  refine ⟨rfl, rfl, rfl, ?_, rfl, rfl, ?_, ?_⟩
  · show ((s.place_analyses.filter fun pa =>
        ([] : List (ℕ × ℕ)).any fun loc => loc.2 = pa.2).filter
          fun pa => pa.1 ≠ run) = []
    simp
  · intro w hw hne
    exact List.mem_filter.mpr ⟨hw, by simpa using hne⟩
  · intro pa hpa hne
    exact List.mem_filter.mpr ⟨hpa, by simpa using hne⟩

/-- Witness for C7 (amended): run 2's `WebsiteAnalysis` and
`PersonAnalysis` rows survive the rerun of run 1. -/
theorem rerun_deletions_scope_witness :
    (2, 1) ∈ (rerun_deletions 1 exampleStore).website_analyses ∧
    (2, 2) ∈ (rerun_deletions 1 exampleStore).person_analyses :=
  ⟨(rerun_deletions_scope 1 exampleStore).2.2.2.2.2.2.1 (2, 1) (by decide) (by decide),
   (rerun_deletions_scope 1 exampleStore).2.2.2.2.2.2.2 (2, 2) (by decide) (by decide)⟩

end DigitalSelf
